import Mathlib

/-!
Verification of the asinine ASN.1 DER decoder core against its interface
(src/include/asinine/asn1.h).  The repository ships only the header; the
implementation files are absent, so every behavioural definition below is
modelled from the specification document, while types, constants and
signatures follow the header.  Bytes are modelled as `Nat` (values < 256 in
well-formed buffers), buffers as `List Nat`, and machine pointers into the
input buffer as `Nat` offsets.
-/

/-- The shared result-code domain, from `asinine_err_t` in the header
(values 0, -1, -2, -3, -4, -5). -/
inductive asinine_err_t where
  | ASININE_OK
  | ASININE_ERROR_INVALID
  | ASININE_ERROR_MEMORY
  | ASININE_ERROR_UNSUPPORTED
  | ASININE_ERROR_UNTRUSTED
  | ASININE_ERROR_EXPIRED
deriving DecidableEq, Repr

instance {ε α : Type} [DecidableEq ε] [DecidableEq α] : DecidableEq (Except ε α) := fun a b =>
  match a, b with
  | .error e, .error f => decidable_of_iff (e = f) (by simp)
  | .error _, .ok _ => isFalse (fun h => Except.noConfusion h)
  | .ok _, .error _ => isFalse (fun h => Except.noConfusion h)
  | .ok x, .ok y => decidable_of_iff (x = y) (by simp)

/-- The integer value of each result code, as assigned in the header. -/
def asinine_err_code : asinine_err_t → Int
  | .ASININE_OK => 0
  | .ASININE_ERROR_INVALID => -1
  | .ASININE_ERROR_MEMORY => -2
  | .ASININE_ERROR_UNSUPPORTED => -3
  | .ASININE_ERROR_UNTRUSTED => -4
  | .ASININE_ERROR_EXPIRED => -5

/-- Maximum nesting depth of the parser, `ASN1_MAXIMUM_DEPTH` in the header. -/
def ASN1_MAXIMUM_DEPTH : Nat := 10

/-- Maximum number of OID arcs, `ASN1_OID_MAXIMUM_DEPTH` in the header. -/
def ASN1_OID_MAXIMUM_DEPTH : Nat := 12

/-- A decoded TLV unit, from `asn1_token_t` in the header.  The C token
carries a borrowed pointer to the content octets plus a length; here `off`
is the pointer (as an offset into the input buffer) and `data` is the
content view itself, so `data.length` plays the role of the C `length`
field. -/
structure asn1_token_t where
  off : Nat
  data : List Nat
  is_primitive : Bool
  tag : Nat
  cls : Nat
deriving DecidableEq, Repr

/-- Parser (cursor) state, from `asn1_parser_t` in the header: cursor
offset, last decoded token, stack of saved parent constraints (most recent
first; the C fixed array `parents` plus `depth`), and the current
constraint (offset one past the end of the current nesting level).  The
input buffer is carried in the state, standing for the memory the C
pointers point into. -/
structure asn1_parser_t where
  data : List Nat
  current : Nat
  token : Option asn1_token_t
  parents : List Nat
  constraint : Nat
deriving DecidableEq, Repr

/-- Modelled from the spec: `asn1_parser_init` (implementation missing from
src/).  Sets the cursor to the buffer start, depth to 0, constraint to the
buffer length; no token has been decoded yet. -/
def asn1_parser_init (data : List Nat) : asn1_parser_t :=
  { data := data, current := 0, token := none, parents := [], constraint := data.length }

/-- Modelled from the spec: the multi-octet (base-128) tag-number extension
decoded by `asn1_parser_next` (implementation missing from src/).  Each
octet contributes its low 7 bits, the high bit is a continuation flag;
`ASININE_ERROR_UNSUPPORTED` once the tag number would overflow the 32-bit
tag representation, `ASININE_ERROR_INVALID` when the continuation bit never
clears before the constraint boundary.  `fuel` bounds the recursion; callers
pass the constraint, which the octet count can never reach. -/
def parseTagLoop (data : List Nat) (limit : Nat) : Nat → Nat → Nat → Except asinine_err_t (Nat × Nat)
  | _, _, 0 => .error .ASININE_ERROR_INVALID
  | off, acc, fuel + 1 =>
    if limit ≤ off then .error .ASININE_ERROR_INVALID
    else
      let b := data.getD off 0
      let acc2 := acc * 128 + b % 128
      if 2 ^ 32 ≤ acc2 then .error .ASININE_ERROR_UNSUPPORTED
      else if b % 256 < 128 then .ok (acc2, off + 1)
      else parseTagLoop data limit (off + 1) acc2 fuel

/-- Big-endian value of `n` octets of `data` starting at `start`. -/
def beValue (data : List Nat) : Nat → Nat → Nat → Nat
  | _, 0, acc => acc
  | start, k + 1, acc => beValue data (start + 1) k (acc * 256 + data.getD start 0)

/-- Modelled from the spec: the length-octet decoding of `asn1_parser_next`
(implementation missing from src/).  A single octet < 128 is a short-form
length; an octet `0x80 + N` introduces `N` big-endian length octets.
`N = 0` (indefinite form) gives `ASININE_ERROR_UNSUPPORTED`; a truncated
header, a long form whose first length octet is zero, or a one-octet long
form encoding a value < 128 (both non-minimal) give
`ASININE_ERROR_INVALID`.  Returns the decoded length and the offset just
past the length octets. -/
def parseLength (data : List Nat) (limit off : Nat) : Except asinine_err_t (Nat × Nat) :=
  if limit ≤ off then .error .ASININE_ERROR_INVALID
  else
    let b := data.getD off 0
    if b < 128 then .ok (b, off + 1)
    else
      let n := b % 128
      if n = 0 then .error .ASININE_ERROR_UNSUPPORTED
      else if limit < off + 1 + n then .error .ASININE_ERROR_INVALID
      else if data.getD (off + 1) 0 = 0 then .error .ASININE_ERROR_INVALID
      else
        let len := beValue data (off + 1) n 0
        if n = 1 ∧ len < 128 then .error .ASININE_ERROR_INVALID
        else .ok (len, off + 1 + n)

/-- Modelled from the spec: `asn1_parser_next` (implementation missing from
src/).  Decodes the identifier octets (top 2 bits class, bit 5
primitive/constructed, low 5 bits tag or the escape 31 to the base-128
extension), then the length octets, and checks that the content fits under
the current constraint; on success the token views exactly the content
octets and the cursor moves past them. -/
def asn1_parser_next (p : asn1_parser_t) : Except asinine_err_t asn1_parser_t :=
  if p.constraint ≤ p.current then .error .ASININE_ERROR_INVALID
  else
    let b := p.data.getD p.current 0
    let cls := b / 64 % 4
    let prim := b % 64 < 32
    let low5 := b % 32
    match (if low5 = 31 then parseTagLoop p.data p.constraint (p.current + 1) 0 p.constraint
           else .ok (low5, p.current + 1) : Except asinine_err_t (Nat × Nat)) with
    | .error e => .error e
    | .ok (tag, off1) =>
      match parseLength p.data p.constraint off1 with
      | .error e => .error e
      | .ok (len, off2) =>
        if p.constraint < off2 + len then .error .ASININE_ERROR_INVALID
        else
          let t : asn1_token_t :=
            { off := off2, data := (p.data.drop off2).take len,
              is_primitive := prim, tag := tag, cls := cls }
          .ok { p with current := off2 + len, token := some t }

/-- Modelled from the spec: `asn1_parser_descend` (implementation missing
from src/).  Fails with `ASININE_ERROR_MEMORY` if the resulting depth would
exceed `ASN1_MAXIMUM_DEPTH`; fails with `ASININE_ERROR_INVALID` if no token
has been decoded or the last-produced token was primitive.  Otherwise pushes
the current constraint, moves the cursor to the start of the token's
content and constrains traversal to its end. -/
def asn1_parser_descend (p : asn1_parser_t) : Except asinine_err_t asn1_parser_t :=
  if ASN1_MAXIMUM_DEPTH ≤ p.parents.length then .error .ASININE_ERROR_MEMORY
  else
    match p.token with
    | none => .error .ASININE_ERROR_INVALID
    | some t =>
      if t.is_primitive then .error .ASININE_ERROR_INVALID
      else
        .ok { p with current := t.off, parents := p.constraint :: p.parents, constraint := t.off + t.data.length }

/-- `n` repetitions of advance-then-descend, the traversal a caller drives
to walk into nested constructed values. -/
def descendChain (p : asn1_parser_t) : Nat → Except asinine_err_t asn1_parser_t
  | 0 => .ok p
  | n + 1 =>
    match asn1_parser_next p with
    | .error e => .error e
    | .ok p1 =>
      match asn1_parser_descend p1 with
      | .error e => .error e
      | .ok p2 => descendChain p2 n

/-- Wraps DER content in a constructed SEQUENCE header (valid while the
content is shorter than 128 bytes, so the short length form applies). -/
def wrapConstructed (b : List Nat) : List Nat := 48 :: b.length :: b

/-- `n` nested constructed wrappers around an empty primitive leaf
(a NULL token `05 00`). -/
def nestedWrappers : Nat → List Nat
  | 0 => [5, 0]
  | n + 1 => wrapConstructed (nestedWrappers n)

/-- An object identifier, from `asn1_oid_t` in the header: the C fixed array
`arcs` together with the count `num` of arcs present becomes a list of arc
values; the decoder enforces `num ≤ ASN1_OID_MAXIMUM_DEPTH`. -/
structure asn1_oid_t where
  arcs : List Nat
deriving DecidableEq, Repr

/-- The `num` field of the C struct: the number of arcs present. -/
def asn1_oid_t.num (o : asn1_oid_t) : Nat := o.arcs.length

/-- Modelled from the spec: the arc-by-arc lexicographic comparison performed
by `asn1_oid_cmp` (implementation missing from src/); when one sequence is a
strict prefix of the other, the shorter compares as less. -/
def arcs_cmp : List Nat → List Nat → Int
  | [], [] => 0
  | [], _ :: _ => -1
  | _ :: _, [] => 1
  | x :: xs, y :: ys => if x < y then -1 else if y < x then 1 else arcs_cmp xs ys

/-- Modelled from the spec: `asn1_oid_cmp` (implementation missing from
src/), comparing the two OIDs' arc sequences. -/
def asn1_oid_cmp (a b : asn1_oid_t) : Int := arcs_cmp a.arcs b.arcs

/-- Big-endian base-256 value of a content byte list. -/
def beBytes (l : List Nat) : Nat := l.foldl (fun acc b => acc * 256 + b % 256) 0

/-- Big-endian two's-complement reading of a content byte list: if the top
bit of the first byte is set the value is negative. -/
def twosComplement (l : List Nat) : Int :=
  if 128 ≤ l.headD 0 then (beBytes l : Int) - 2 ^ (8 * l.length) else (beBytes l : Int)

/-- Modelled from the spec: `asn1_int` (implementation missing from src/),
the strict integer decoder.  The token must be a primitive universal INTEGER
(tag 2); empty content is Invalid; a leading 0x00 or 0xFF padding byte ahead
of further content is Invalid (the spec's canonical-form rule, whose testable
property makes content {0x00, 0x80} Invalid); more content bytes than fit
the 32-bit signed output give Memory; otherwise the big-endian
two's-complement value is returned. -/
def asn1_int (t : asn1_token_t) : Except asinine_err_t Int :=
  if ¬(t.is_primitive = true ∧ t.cls = 0 ∧ t.tag = 2) then .error .ASININE_ERROR_INVALID
  else if t.data = [] then .error .ASININE_ERROR_INVALID
  else if 2 ≤ t.data.length ∧ (t.data.headD 0 = 0 ∨ t.data.headD 0 = 255) then
    .error .ASININE_ERROR_INVALID
  else if 4 < t.data.length then .error .ASININE_ERROR_MEMORY
  else .ok (twosComplement t.data)

/-- A primitive universal INTEGER token with the given content octets. -/
def intToken (content : List Nat) : asn1_token_t := ⟨0, content, true, 2, 0⟩

/-- Reverses the bit order within one byte: bit `i` of the input byte is bit
`7 - i` of the output byte. -/
def reverseBits (b : Nat) : Nat :=
  (List.range 8).foldl (fun acc i => acc + b / 2 ^ i % 2 * 2 ^ (7 - i)) 0

/-- Modelled from the spec: `asn1_bitstring` (implementation missing from
src/).  The token must be a primitive universal BIT STRING (tag 3); the
first content byte counts the unused trailing bits (Invalid if > 7, or
nonzero with no data bytes, or missing); the remaining bytes are copied to
the caller's buffer with each byte's bit order reversed; Memory if the
buffer is too small.  Returns the result code and the resulting buffer,
which is unchanged on every failure. -/
def asn1_bitstring (t : asn1_token_t) (buf : List Nat) : asinine_err_t × List Nat :=
  if ¬(t.is_primitive = true ∧ t.cls = 0 ∧ t.tag = 3) then (.ASININE_ERROR_INVALID, buf)
  else if t.data = [] then (.ASININE_ERROR_INVALID, buf)
  else if 7 < t.data.headD 0 then (.ASININE_ERROR_INVALID, buf)
  else if t.data.tail = [] ∧ t.data.headD 0 ≠ 0 then (.ASININE_ERROR_INVALID, buf)
  else if buf.length < t.data.tail.length then (.ASININE_ERROR_MEMORY, buf)
  else (.ASININE_OK, t.data.tail.map reverseBits ++ buf.drop t.data.tail.length)

/-- A primitive universal BIT STRING token with the given content octets. -/
def bitstringToken (content : List Nat) : asn1_token_t := ⟨0, content, true, 3, 0⟩

/-- Whether `tag` is one of the recognized universal string tags
(UTF8STRING 12, PRINTABLESTRING 19, T61STRING 20, IA5STRING 22,
VISIBLESTRING 26). -/
def isStringTag (tag : Nat) : Bool :=
  tag = 12 || tag = 19 || tag = 20 || tag = 22 || tag = 26

/-- Modelled from the spec: the per-tag character-set rule enforced by
`asn1_string` — the restricted printable set for PRINTABLESTRING, 7-bit
values for IA5STRING and VISIBLESTRING, unconstrained otherwise. -/
def stringCharOk (tag b : Nat) : Bool :=
  if tag = 19 then
    (65 ≤ b && b ≤ 90) || (97 ≤ b && b ≤ 122) || (48 ≤ b && b ≤ 57) ||
      b = 32 || b = 39 || b = 40 || b = 41 || (43 ≤ b && b ≤ 47) || b = 58 || b = 61 || b = 63
  else if tag = 22 || tag = 26 then b < 128
  else true

/-- Modelled from the spec: `asn1_string` (implementation missing from
src/).  Validates the token's type and its bytes against the tag's
character-set rule (Invalid otherwise), then copies the content verbatim
plus a 0 terminator into the caller's buffer; Memory if the buffer cannot
hold content and terminator.  Returns the result code and the resulting
buffer, which is unchanged on every failure. -/
def asn1_string (t : asn1_token_t) (buf : List Nat) : asinine_err_t × List Nat :=
  if ¬(t.is_primitive = true ∧ t.cls = 0 ∧ isStringTag t.tag = true) then
    (.ASININE_ERROR_INVALID, buf)
  else if ¬ t.data.all (stringCharOk t.tag) then (.ASININE_ERROR_INVALID, buf)
  else if buf.length < t.data.length + 1 then (.ASININE_ERROR_MEMORY, buf)
  else (.ASININE_OK, t.data ++ 0 :: buf.drop (t.data.length + 1))

/-- Modelled from the spec: one base-128 big-endian variable-length integer
of the OID content, after its first octet has been checked (implementation
missing from src/).  The high bit of each octet is a continuation flag;
`ASININE_ERROR_MEMORY` once the value would overflow the 32-bit arc
representation, `ASININE_ERROR_INVALID` when the continuation bit never
clears within the content. -/
def parseArcLoop : List Nat → Nat → Except asinine_err_t (Nat × List Nat)
  | [], _ => .error .ASININE_ERROR_INVALID
  | b :: rest, acc =>
    let acc2 := acc * 128 + b % 128
    if 2 ^ 32 ≤ acc2 then .error .ASININE_ERROR_MEMORY
    else if b % 256 < 128 then .ok (acc2, rest)
    else parseArcLoop rest acc2

/-- Modelled from the spec: start of one encoded OID arc — a superfluous
leading 0x80 padding octet is Invalid (implementation missing from src/). -/
def parseArcStart (content : List Nat) : Except asinine_err_t (Nat × List Nat) :=
  match content with
  | [] => .error .ASININE_ERROR_INVALID
  | b :: _ => if b = 128 then .error .ASININE_ERROR_INVALID else parseArcLoop content 0

/-- All encoded values of an OID content, in order.  `fuel` bounds the
recursion; every arc consumes at least one octet, so `content.length + 1`
is always enough. -/
def parseArcs : List Nat → Nat → Except asinine_err_t (List Nat)
  | _, 0 => .error .ASININE_ERROR_INVALID
  | content, fuel + 1 =>
    match content with
    | [] => .ok []
    | _ :: _ =>
      match parseArcStart content with
      | .error e => .error e
      | .ok (v, rest) =>
        match parseArcs rest fuel with
        | .error e => .error e
        | .ok vs => .ok (v :: vs)

/-- Modelled from the spec: `asn1_oid` (implementation missing from src/).
The token must be a primitive universal OID (tag 6) with nonempty content;
the first encoded value `v` is unpacked into the two logical arcs `v / 40`
and `v % 40` (so `v = 40 * arc0 + arc1`); `ASININE_ERROR_MEMORY` when the
decoded arc count exceeds `ASN1_OID_MAXIMUM_DEPTH` (the 32-bit arc overflow
case is reported from `parseArcLoop`). -/
def asn1_oid (t : asn1_token_t) : Except asinine_err_t asn1_oid_t :=
  if ¬(t.is_primitive = true ∧ t.cls = 0 ∧ t.tag = 6) then .error .ASININE_ERROR_INVALID
  else if t.data = [] then .error .ASININE_ERROR_INVALID
  else
    match parseArcs t.data (t.data.length + 1) with
    | .error e => .error e
    | .ok [] => .error .ASININE_ERROR_INVALID
    | .ok (v :: vs) =>
      if ASN1_OID_MAXIMUM_DEPTH < vs.length + 2 then .error .ASININE_ERROR_MEMORY
      else .ok ⟨v / 40 :: v % 40 :: vs⟩

/-- A primitive universal OID token with the given content octets. -/
def oidToken (content : List Nat) : asn1_token_t := ⟨0, content, true, 6, 0⟩

/-- ASCII decimal digits of `n` (fuel-bounded helper). -/
def decimalDigitsAux : Nat → Nat → List Nat
  | 0, _ => []
  | fuel + 1, n => if n < 10 then [48 + n] else decimalDigitsAux fuel (n / 10) ++ [48 + n % 10]

/-- ASCII decimal digits of `n`. -/
def decimalDigits (n : Nat) : List Nat := decimalDigitsAux (n + 1) n

/-- Modelled from the spec: the dot-separated decimal rendering of an arc
sequence produced by `asn1_oid_to_string` (46 is the ASCII dot). -/
def oidRendering : List Nat → List Nat
  | [] => []
  | [a] => decimalDigits a
  | a :: rest => decimalDigits a ++ 46 :: oidRendering rest

/-- Modelled from the spec and the header signature: `asn1_oid_to_string`
(implementation missing from src/).  The header declares the result `bool`:
the rendering plus a 0 terminator is written into the caller's buffer and
`true` returned when it fits, otherwise `false` is returned and the buffer
is untouched. -/
def asn1_oid_to_string (o : asn1_oid_t) (buf : List Nat) : Bool × List Nat :=
  let s := oidRendering o.arcs
  if buf.length < s.length + 1 then (false, buf)
  else (true, s ++ 0 :: buf.drop (s.length + 1))

/-- Gregorian leap-year rule. -/
def isLeap (y : Nat) : Bool := y % 4 == 0 && (y % 100 != 0 || y % 400 == 0)

/-- Days in month `m` of year `y`. -/
def daysInMonth (y m : Nat) : Nat :=
  if m = 2 then (if isLeap y then 29 else 28)
  else if m = 4 ∨ m = 6 ∨ m = 9 ∨ m = 11 then 30
  else 31

/-- Signed day count from the Unix epoch 1970-01-01 to the proleptic
Gregorian civil date `y-m-d` (negative for earlier dates). -/
def daysFromCivil (y m d : Nat) : Int :=
  let yy : Int := if m ≤ 2 then (y : Int) - 1 else (y : Int)
  let era : Int := Int.ediv yy 400
  let yoe : Int := yy - era * 400
  let mp : Nat := if 2 < m then m - 3 else m + 9
  let doy : Nat := (153 * mp + 2) / 5 + d - 1
  let doe : Int := yoe * 365 + Int.ediv yoe 4 - Int.ediv yoe 100 + (doy : Int)
  era * 146097 + doe - 719468

/-- Modelled from the spec: the two-digit-year window of the UTC time form —
digits 00–49 are years 2000–2049, digits 50–99 are years 1950–1999. -/
def utcWindowYear (yy : Nat) : Nat := if yy ≤ 49 then 2000 + yy else 1900 + yy

/-- Whether an ASCII code is a decimal digit. -/
def isDigit (b : Nat) : Bool := 48 ≤ b && b ≤ 57

/-- Numeric value of the two ASCII digits at positions `i`, `i+1`. -/
def twoDigitsVal (l : List Nat) (i : Nat) : Nat :=
  (l.getD i 0 - 48) * 10 + (l.getD (i + 1) 0 - 48)

/-- Modelled from the spec: calendar-field range checks of `asn1_time` and
the conversion to signed seconds since the Unix epoch (implementation
missing from src/). -/
def fieldsToTime (y mon day hh mi ss : Nat) : Except asinine_err_t Int :=
  if mon < 1 ∨ 12 < mon then .error .ASININE_ERROR_INVALID
  else if day < 1 ∨ daysInMonth y mon < day then .error .ASININE_ERROR_INVALID
  else if 23 < hh ∨ 59 < mi ∨ 59 < ss then .error .ASININE_ERROR_INVALID
  else .ok (daysFromCivil y mon day * 86400 + (hh : Int) * 3600 + (mi : Int) * 60 + (ss : Int))

/-- Modelled from the spec: the fixed-width 2-digit-year UTC time form
`YYMMDDHHMM[SS]Z` (90 is the ASCII `Z` designator), with the year window
applied (implementation missing from src/). -/
def parseUtcTime (l : List Nat) : Except asinine_err_t Int :=
  if l.length = 13 ∧ l.getD 12 0 = 90 ∧ (l.take 12).all isDigit then
    fieldsToTime (utcWindowYear (twoDigitsVal l 0)) (twoDigitsVal l 2) (twoDigitsVal l 4)
      (twoDigitsVal l 6) (twoDigitsVal l 8) (twoDigitsVal l 10)
  else if l.length = 11 ∧ l.getD 10 0 = 90 ∧ (l.take 10).all isDigit then
    fieldsToTime (utcWindowYear (twoDigitsVal l 0)) (twoDigitsVal l 2) (twoDigitsVal l 4)
      (twoDigitsVal l 6) (twoDigitsVal l 8) 0
  else .error .ASININE_ERROR_INVALID

/-- Modelled from the spec: the fixed-width 4-digit-year generalized time
form `YYYYMMDDHHMMSSZ` (implementation missing from src/). -/
def parseGenTime (l : List Nat) : Except asinine_err_t Int :=
  if l.length = 15 ∧ l.getD 14 0 = 90 ∧ (l.take 14).all isDigit then
    fieldsToTime (twoDigitsVal l 0 * 100 + twoDigitsVal l 2) (twoDigitsVal l 4)
      (twoDigitsVal l 6) (twoDigitsVal l 8) (twoDigitsVal l 10) (twoDigitsVal l 12)
  else .error .ASININE_ERROR_INVALID

/-- Modelled from the spec: `asn1_time` (implementation missing from src/).
The token must be a primitive universal UTCTIME (tag 23) or GENERALIZEDTIME
(tag 24); the corresponding calendar string form is decoded to signed
seconds since the Unix epoch. -/
def asn1_time (t : asn1_token_t) : Except asinine_err_t Int :=
  if ¬(t.is_primitive = true ∧ t.cls = 0) then .error .ASININE_ERROR_INVALID
  else if t.tag = 23 then parseUtcTime t.data
  else if t.tag = 24 then parseGenTime t.data
  else .error .ASININE_ERROR_INVALID

/-- The two ASCII digits of `n % 100`. -/
def twoAscii (n : Nat) : List Nat := [48 + n / 10 % 10, 48 + n % 10]

/-- UTC-form time content `YYMMDDHHMMSSZ` built from numeric fields. -/
def utcContentOf (yy mon day hh mi ss : Nat) : List Nat :=
  twoAscii yy ++ twoAscii mon ++ twoAscii day ++ twoAscii hh ++ twoAscii mi ++ twoAscii ss ++ [90]

/-- A primitive universal UTCTIME token built from numeric fields. -/
def utcTimeToken (yy mon day hh mi ss : Nat) : asn1_token_t :=
  ⟨0, utcContentOf yy mon day hh mi ss, true, 23, 0⟩

theorem arcs_cmp_cases : ∀ xs ys : List Nat,
    arcs_cmp xs ys = -1 ∨ arcs_cmp xs ys = 0 ∨ arcs_cmp xs ys = 1 := by
  intro xs
  induction xs with
  | nil => intro ys; cases ys <;> simp [arcs_cmp]
  | cons x xs ih =>
    intro ys
    cases ys with
    | nil => simp [arcs_cmp]
    | cons y ys =>
      simp only [arcs_cmp]
      split
      · exact .inl rfl
      · split
        · exact .inr (.inr rfl)
        · exact ih ys

theorem arcs_cmp_swap : ∀ xs ys : List Nat, arcs_cmp ys xs = -arcs_cmp xs ys := by
  intro xs
  induction xs with
  | nil => intro ys; cases ys <;> simp [arcs_cmp]
  | cons x xs ih =>
    intro ys
    cases ys with
    | nil => simp [arcs_cmp]
    | cons y ys =>
      simp only [arcs_cmp]
      rcases Nat.lt_trichotomy x y with h | h | h
      · rw [if_neg (by omega), if_pos h, if_pos h]; decide
      · rw [if_neg (by omega), if_neg (by omega), if_neg (by omega), if_neg (by omega)]
        exact ih ys
      · rw [if_pos h, if_neg (by omega), if_pos h]

theorem arcs_cmp_eq_zero_iff : ∀ xs ys : List Nat, arcs_cmp xs ys = 0 ↔ xs = ys := by
  intro xs
  induction xs with
  | nil => intro ys; cases ys <;> simp [arcs_cmp]
  | cons x xs ih =>
    intro ys
    cases ys with
    | nil => simp [arcs_cmp]
    | cons y ys =>
      simp only [arcs_cmp, List.cons.injEq]
      by_cases h1 : x < y
      · rw [if_pos h1]
        constructor
        · intro h; exact absurd h (by decide)
        · rintro ⟨h, _⟩; omega
      · rw [if_neg h1]
        by_cases h2 : y < x
        · rw [if_pos h2]
          constructor
          · intro h; exact absurd h (by decide)
          · rintro ⟨h, _⟩; omega
        · rw [if_neg h2, ih ys]
          constructor
          · intro h; exact ⟨by omega, h⟩
          · rintro ⟨_, h⟩; exact h

theorem arcs_cmp_neg_elim {x y : Nat} {xs ys : List Nat}
    (h : arcs_cmp (x :: xs) (y :: ys) < 0) : x < y ∨ (x = y ∧ arcs_cmp xs ys < 0) := by
  simp only [arcs_cmp] at h
  by_cases h1 : x < y
  · exact Or.inl h1
  · rw [if_neg h1] at h
    by_cases h2 : y < x
    · rw [if_pos h2] at h; omega
    · rw [if_neg h2] at h; exact Or.inr ⟨by omega, h⟩

theorem arcs_cmp_neg_intro {x y : Nat} {xs ys : List Nat}
    (h : x < y ∨ (x = y ∧ arcs_cmp xs ys < 0)) : arcs_cmp (x :: xs) (y :: ys) < 0 := by
  simp only [arcs_cmp]
  rcases h with h | ⟨h1, h2⟩
  · rw [if_pos h]; decide
  · rw [if_neg (by omega), if_neg (by omega)]; exact h2

theorem arcs_cmp_trans_lt : ∀ xs ys zs : List Nat,
    arcs_cmp xs ys < 0 → arcs_cmp ys zs < 0 → arcs_cmp xs zs < 0 := by
  intro xs
  induction xs with
  | nil =>
    intro ys zs h1 h2
    cases zs with
    | nil =>
      cases ys with
      | nil => simp [arcs_cmp] at h1
      | cons y ys => simp [arcs_cmp] at h2
    | cons z zs => simp [arcs_cmp]
  | cons x xs ih =>
    intro ys zs h1 h2
    cases ys with
    | nil => simp [arcs_cmp] at h1
    | cons y ys =>
      cases zs with
      | nil => simp [arcs_cmp] at h2
      | cons z zs =>
        rcases arcs_cmp_neg_elim h1 with hxy | ⟨hxy, hr1⟩ <;>
          rcases arcs_cmp_neg_elim h2 with hyz | ⟨hyz, hr2⟩
        · exact arcs_cmp_neg_intro (Or.inl (by omega))
        · exact arcs_cmp_neg_intro (Or.inl (by omega))
        · exact arcs_cmp_neg_intro (Or.inl (by omega))
        · exact arcs_cmp_neg_intro (Or.inr ⟨by omega, ih ys zs hr1 hr2⟩)

theorem arcs_cmp_strict_prefix : ∀ xs t : List Nat, t ≠ [] → arcs_cmp xs (xs ++ t) < 0 := by
  intro xs
  induction xs with
  | nil =>
    intro t ht
    cases t with
    | nil => exact absurd rfl ht
    | cons a t => simp [arcs_cmp]
  | cons x xs ih =>
    intro t ht
    exact arcs_cmp_neg_intro (Or.inr ⟨rfl, ih t ht⟩)

/-- C7: `asn1_oid_cmp` is a total order on OIDs: it is zero exactly on equal
arc sequences, antisymmetric, trichotomous and transitive; a strict prefix
compares as less than the longer sequence; and `{1,2}` < `{1,2,1}` < `{1,3}`. -/
theorem C7_oid_cmp_total_order :
    (∀ a b : asn1_oid_t, asn1_oid_cmp a b = 0 ↔ a.arcs = b.arcs)
    ∧ (∀ a b : asn1_oid_t, asn1_oid_cmp b a = -asn1_oid_cmp a b)
    ∧ (∀ a b : asn1_oid_t, asn1_oid_cmp a b < 0 ∨ asn1_oid_cmp a b = 0 ∨ 0 < asn1_oid_cmp a b)
    ∧ (∀ a b c : asn1_oid_t, asn1_oid_cmp a b < 0 → asn1_oid_cmp b c < 0 → asn1_oid_cmp a c < 0)
    ∧ (∀ a b : asn1_oid_t, ∀ t : List Nat, t ≠ [] → b.arcs = a.arcs ++ t → asn1_oid_cmp a b < 0)
    ∧ asn1_oid_cmp ⟨[1, 2]⟩ ⟨[1, 2, 1]⟩ < 0 ∧ asn1_oid_cmp ⟨[1, 2, 1]⟩ ⟨[1, 3]⟩ < 0 := by
  refine ⟨fun a b => arcs_cmp_eq_zero_iff _ _, fun a b => arcs_cmp_swap _ _, fun a b => ?_,
    fun a b c => arcs_cmp_trans_lt _ _ _, fun a b t ht hb => ?_, by decide, by decide⟩
  · have := arcs_cmp_cases a.arcs b.arcs
    unfold asn1_oid_cmp
    omega
  · unfold asn1_oid_cmp
    rw [hb]
    exact arcs_cmp_strict_prefix _ _ ht

/-- Closed instantiation of the transitivity and strict-prefix parts of
`C7_oid_cmp_total_order` at concrete OIDs. -/
theorem C7_oid_cmp_total_order_witness :
    asn1_oid_cmp ⟨[1, 2]⟩ ⟨[1, 3]⟩ < 0 ∧ asn1_oid_cmp ⟨[1, 2]⟩ ⟨[1, 2, 1]⟩ < 0 :=
  ⟨C7_oid_cmp_total_order.2.2.2.1 ⟨[1, 2]⟩ ⟨[1, 2, 1]⟩ ⟨[1, 3]⟩ (by decide) (by decide),
   C7_oid_cmp_total_order.2.2.2.2.1 ⟨[1, 2]⟩ ⟨[1, 2, 1]⟩ [1] (by decide) (by decide)⟩

/-- C10: in the shared result-code domain, success is exactly code 0, every
error code is strictly negative with the values assigned in the header, and
an operation's result is a failure precisely when its code is below the code
of `ASININE_OK`. -/
theorem C10_error_codes :
    asinine_err_code .ASININE_OK = 0
    ∧ asinine_err_code .ASININE_ERROR_INVALID = -1
    ∧ asinine_err_code .ASININE_ERROR_MEMORY = -2
    ∧ asinine_err_code .ASININE_ERROR_UNSUPPORTED = -3
    ∧ asinine_err_code .ASININE_ERROR_UNTRUSTED = -4
    ∧ asinine_err_code .ASININE_ERROR_EXPIRED = -5
    ∧ ∀ e : asinine_err_t, e ≠ .ASININE_OK ↔ asinine_err_code e < asinine_err_code .ASININE_OK := by
  refine ⟨rfl, rfl, rfl, rfl, rfl, rfl, fun e => ?_⟩
  cases e <;> decide

/-- C1: `asn1_parser_descend` fails with `ASININE_ERROR_MEMORY` exactly when the
resulting depth would exceed `ASN1_MAXIMUM_DEPTH` (= 10); and on the input of
`ASN1_MAXIMUM_DEPTH + 1` nested constructed wrappers around an empty leaf, the
first 10 advance-descend steps succeed (reaching depth 10), the next advance
still succeeds with a constructed token, and the traversal fails with
`ASININE_ERROR_MEMORY` at the 11th descend, the first one that would exceed the
bound. -/
theorem C1_descend_depth_bound :
    (∀ p : asn1_parser_t,
      asn1_parser_descend p = .error .ASININE_ERROR_MEMORY ↔ ASN1_MAXIMUM_DEPTH ≤ p.parents.length)
    ∧ (descendChain (asn1_parser_init (nestedWrappers (ASN1_MAXIMUM_DEPTH + 1))) ASN1_MAXIMUM_DEPTH).toOption.map (fun p => p.parents.length) = some ASN1_MAXIMUM_DEPTH
    ∧ ((descendChain (asn1_parser_init (nestedWrappers (ASN1_MAXIMUM_DEPTH + 1))) ASN1_MAXIMUM_DEPTH).toOption.bind (fun p => (asn1_parser_next p).toOption)).map (fun p => p.token.map (fun t => t.is_primitive)) = some (some false)
    ∧ descendChain (asn1_parser_init (nestedWrappers (ASN1_MAXIMUM_DEPTH + 1))) (ASN1_MAXIMUM_DEPTH + 1) = .error .ASININE_ERROR_MEMORY := by
  refine ⟨fun p => ?_, by decide, by decide, by decide⟩
  unfold asn1_parser_descend
  by_cases h : ASN1_MAXIMUM_DEPTH ≤ p.parents.length
  · simp [h]
  · rw [if_neg h]
    refine iff_of_false ?_ h
    cases p.token with
    | none => simp
    | some t => cases ht : t.is_primitive <;> simp [ht]

/-- C2: length-octet handling of Advance.  A first length octet `0x80`
(long form with `N = 0`, the indefinite form) makes `parseLength`, and hence
`asn1_parser_next`, fail with `ASININE_ERROR_UNSUPPORTED`; a long-form length
of one octet encoding a value below 128 (over-long, non-minimal — including a
leading zero octet) fails with `ASININE_ERROR_INVALID`; and a length whose
value exceeds the bytes remaining under the current constraint fails with
`ASININE_ERROR_INVALID`. -/
theorem C2_advance_length_octets :
    (∀ data limit off, off < limit → data.getD off 0 = 128 →
      parseLength data limit off = .error .ASININE_ERROR_UNSUPPORTED)
    ∧ (∀ rest : List Nat,
        asn1_parser_next (asn1_parser_init (48 :: 128 :: rest)) = .error .ASININE_ERROR_UNSUPPORTED)
    ∧ (∀ data limit off, off + 2 ≤ limit → data.getD off 0 = 129 → data.getD (off + 1) 0 < 128 →
        parseLength data limit off = .error .ASININE_ERROR_INVALID)
    ∧ asn1_parser_next (asn1_parser_init [48, 129, 5]) = .error .ASININE_ERROR_INVALID
    ∧ asn1_parser_next (asn1_parser_init [48, 130, 0, 200]) = .error .ASININE_ERROR_INVALID
    ∧ (∀ n, 0 < n → n < 128 →
        asn1_parser_next (asn1_parser_init [48, n]) = .error .ASININE_ERROR_INVALID) := by
  refine ⟨?_, ?_, ?_, by decide, by decide, ?_⟩
  · intro data limit off h1 h2
    unfold parseLength
    rw [if_neg (not_le.2 h1)]
    simp only [List.getD_eq_getElem?_getD] at h2
    simp [h2]
  · intro rest
    simp [asn1_parser_next, asn1_parser_init, parseLength, List.getD]
  · intro data limit off h1 h2 h3
    unfold parseLength
    rw [if_neg (not_le.2 (by omega))]
    by_cases hz : data.getD (off + 1) 0 = 0
    · simp only [List.getD_eq_getElem?_getD] at h2 hz
      simp [h2, hz]
    · simp only [List.getD_eq_getElem?_getD] at h2 hz h3
      simp [h2, hz, beValue, h3, if_neg (by omega : ¬ limit < off + 1 + 1)]
  · intro n h1 h2
    simp [asn1_parser_next, asn1_parser_init, parseLength, List.getD, h2]
    omega

/-- Closed instantiation of the quantified parts of `C2_advance_length_octets`
at concrete inputs. -/
theorem C2_advance_length_octets_witness :
    parseLength [48, 128] 2 1 = .error .ASININE_ERROR_UNSUPPORTED
    ∧ asn1_parser_next (asn1_parser_init (48 :: 128 :: [])) = .error .ASININE_ERROR_UNSUPPORTED
    ∧ parseLength [48, 129, 5] 3 1 = .error .ASININE_ERROR_INVALID
    ∧ asn1_parser_next (asn1_parser_init [48, 5]) = .error .ASININE_ERROR_INVALID :=
  ⟨C2_advance_length_octets.1 [48, 128] 2 1 (by decide) (by decide),
   C2_advance_length_octets.2.1 [],
   C2_advance_length_octets.2.2.1 [48, 129, 5] 3 1 (by decide) (by decide) (by decide),
   C2_advance_length_octets.2.2.2.2.2 5 (by decide) (by decide)⟩

/-- C3: the strict integer decoder reads big-endian two's-complement
content ({0x80} is -128, {0x02, 0x01} is 513, {0xFF} is -1), rejects a
leading 0x00 or 0xFF padding byte as Invalid (in particular content
{0x00, 0x80}), and returns Memory when the content has more significant
bytes than the 32-bit output holds. -/
theorem C3_int_strict :
    asn1_int (intToken [0, 128]) = .error .ASININE_ERROR_INVALID
    ∧ asn1_int (intToken [255, 255]) = .error .ASININE_ERROR_INVALID
    ∧ asn1_int (intToken [128]) = .ok (-128)
    ∧ asn1_int (intToken [2, 1]) = .ok 513
    ∧ asn1_int (intToken [255]) = .ok (-1)
    ∧ (∀ b rest, b ≠ 0 → b ≠ 255 → 3 < rest.length →
        asn1_int (intToken (b :: rest)) = .error .ASININE_ERROR_MEMORY)
    ∧ (∀ t v, asn1_int t = .ok v → v = twosComplement t.data) := by
  refine ⟨by decide, by decide, by decide, by decide, by decide, ?_, ?_⟩
  · intro b rest hb hb' hlen
    unfold asn1_int
    rw [if_neg (by simp [intToken])]
    rw [if_neg (by simp [intToken])]
    rw [if_neg (by simp [intToken, hb, hb'])]
    rw [if_pos (by simp [intToken]; omega)]
  · intro t v h
    unfold asn1_int at h
    split at h
    · exact absurd h (by simp)
    · split at h
      · exact absurd h (by simp)
      · split at h
        · exact absurd h (by simp)
        · split at h
          · exact absurd h (by simp)
          · injection h with h
            exact h.symm

/-- Closed instantiation of the quantified parts of `C3_int_strict`: a
5-byte content overflows the 32-bit output, and the decoded value of {0x80}
is its two's-complement reading. -/
theorem C3_int_strict_witness :
    asn1_int (intToken [1, 0, 0, 0, 0]) = .error .ASININE_ERROR_MEMORY
    ∧ (-128 : Int) = twosComplement (intToken [128]).data :=
  ⟨C3_int_strict.2.2.2.2.2.1 1 [0, 0, 0, 0] (by decide) (by decide) (by decide),
   C3_int_strict.2.2.2.2.2.2 (intToken [128]) (-128) C3_int_strict.2.2.1⟩

/-- C4: the time decoder windows a 2-digit UTC-form year (00–49 to
2000–2049, 50–99 to 1950–1999: for every windowed year the token decodes to
the epoch seconds of Jan 1 of that year, digits 49 giving 2049-01-01
= 2493072000 and digits 50 giving 1950-01-01 = -631152000), range-checks
every calendar field (month 13, day 0, Feb 30, day 32, hour 24, minute 60
and second 60 are all Invalid), and decodes the generalized form
19700101000000Z to 0. -/
theorem C4_time_windowing :
    (∀ yy : Fin 100, asn1_time (utcTimeToken yy.val 1 1 0 0 0)
        = .ok (daysFromCivil (utcWindowYear yy.val) 1 1 * 86400))
    ∧ asn1_time (utcTimeToken 49 1 1 0 0 0) = .ok 2493072000
    ∧ asn1_time (utcTimeToken 50 1 1 0 0 0) = .ok (-631152000)
    ∧ utcWindowYear 49 = 2049 ∧ utcWindowYear 50 = 1950
    ∧ asn1_time (utcTimeToken 99 13 1 0 0 0) = .error .ASININE_ERROR_INVALID
    ∧ asn1_time (utcTimeToken 99 1 0 0 0 0) = .error .ASININE_ERROR_INVALID
    ∧ asn1_time (utcTimeToken 99 2 30 0 0 0) = .error .ASININE_ERROR_INVALID
    ∧ asn1_time (utcTimeToken 99 1 32 0 0 0) = .error .ASININE_ERROR_INVALID
    ∧ asn1_time (utcTimeToken 99 1 1 24 0 0) = .error .ASININE_ERROR_INVALID
    ∧ asn1_time (utcTimeToken 99 1 1 0 60 0) = .error .ASININE_ERROR_INVALID
    ∧ asn1_time (utcTimeToken 99 1 1 0 0 60) = .error .ASININE_ERROR_INVALID
    ∧ asn1_time ⟨0, [49, 57, 55, 48, 48, 49, 48, 49, 48, 48, 48, 48, 48, 48, 90], true, 24, 0⟩
        = .ok 0 := by
  refine ⟨by decide, by decide, by decide, by decide, by decide, by decide, by decide, by decide,
    by decide, by decide, by decide, by decide, by decide⟩

/-- C5: the bit-string decoder transposes each data byte's bit order (bit i
of the input is bit 7-i of the output; content {0, 0b10110000} yields the
single byte 0b00001101), copies the transposed bytes into the buffer on
success, rejects an unused-bit count above 7 and a nonzero unused-bit count
with zero data bytes as Invalid, and reports a too-small buffer as Memory
leaving it unchanged. -/
theorem C5_bitstring_transpose :
    asn1_bitstring (bitstringToken [0, 176]) [7] = (.ASININE_OK, [13])
    ∧ (∀ b : Fin 256, ∀ i : Fin 8, (reverseBits b.val).testBit i.val = b.val.testBit (7 - i.val))
    ∧ (∀ d buf, d.length ≤ buf.length →
        asn1_bitstring (bitstringToken (0 :: d)) buf
          = (.ASININE_OK, d.map reverseBits ++ buf.drop d.length))
    ∧ (∀ u rest buf, 7 < u →
        asn1_bitstring (bitstringToken (u :: rest)) buf = (.ASININE_ERROR_INVALID, buf))
    ∧ (∀ u buf, u ≠ 0 → u ≤ 7 →
        asn1_bitstring (bitstringToken [u]) buf = (.ASININE_ERROR_INVALID, buf))
    ∧ (∀ d buf, buf.length < d.length →
        asn1_bitstring (bitstringToken (0 :: d)) buf = (.ASININE_ERROR_MEMORY, buf)) := by
  refine ⟨by decide, by set_option maxRecDepth 16384 in decide, ?_, ?_, ?_, ?_⟩
  · intro d buf h
    simp [asn1_bitstring, bitstringToken, Nat.not_lt.2 h]
  · intro u rest buf h
    simp [asn1_bitstring, bitstringToken, h]
  · intro u buf h1 h2
    simp [asn1_bitstring, bitstringToken, h1, Nat.not_lt.2 h2]
  · intro d buf h
    simp [asn1_bitstring, bitstringToken, h]

/-- Closed instantiation of the quantified parts of `C5_bitstring_transpose`
at concrete contents and buffers. -/
theorem C5_bitstring_transpose_witness :
    asn1_bitstring (bitstringToken (0 :: [176])) [7]
      = (.ASININE_OK, [176].map reverseBits ++ [7].drop 1)
    ∧ asn1_bitstring (bitstringToken (8 :: [])) [] = (.ASININE_ERROR_INVALID, [])
    ∧ asn1_bitstring (bitstringToken [3]) [0] = (.ASININE_ERROR_INVALID, [0])
    ∧ asn1_bitstring (bitstringToken (0 :: [176, 1])) [9] = (.ASININE_ERROR_MEMORY, [9]) :=
  ⟨C5_bitstring_transpose.2.2.1 [176] [7] (by decide),
   C5_bitstring_transpose.2.2.2.1 8 [] [] (by decide),
   C5_bitstring_transpose.2.2.2.2.1 3 [0] (by decide) (by decide),
   C5_bitstring_transpose.2.2.2.2.2 [176, 1] [9] (by decide)⟩

/-- C6: the buffer-writing decoders leave the caller's buffer unchanged on
every failure: whenever `asn1_string` or `asn1_bitstring` returns a code
other than `ASININE_OK`, or `asn1_oid_to_string` returns `false`, the buffer
comes back exactly as supplied; and for a valid string token with a buffer
one byte smaller than the content-plus-terminator it needs, `asn1_string`
returns `ASININE_ERROR_MEMORY` with the buffer unmodified. -/
theorem C6_outputs_unwritten_on_failure :
    (∀ t buf, (asn1_string t buf).1 ≠ .ASININE_OK → (asn1_string t buf).2 = buf)
    ∧ (∀ t buf, (asn1_bitstring t buf).1 ≠ .ASININE_OK → (asn1_bitstring t buf).2 = buf)
    ∧ (∀ o buf, (asn1_oid_to_string o buf).1 = false → (asn1_oid_to_string o buf).2 = buf)
    ∧ (∀ t buf, t.is_primitive = true → t.cls = 0 → isStringTag t.tag = true →
        t.data.all (stringCharOk t.tag) = true → buf.length = t.data.length →
        asn1_string t buf = (.ASININE_ERROR_MEMORY, buf)) := by
  refine ⟨?_, ?_, ?_, ?_⟩
  · intro t buf h
    by_cases c1 : ¬(t.is_primitive = true ∧ t.cls = 0 ∧ isStringTag t.tag = true)
    · simp [asn1_string, c1]
    · by_cases c2 : t.data.all (stringCharOk t.tag) = true
      · by_cases c3 : buf.length < t.data.length + 1
        · simp [asn1_string, c1, c2, c3]
        · exact absurd (by simp [asn1_string, c1, c2, c3]) h
      · simp [asn1_string, c1, c2]
  · intro t buf h
    unfold asn1_bitstring at h ⊢
    by_cases c1 : ¬(t.is_primitive = true ∧ t.cls = 0 ∧ t.tag = 3)
    · rw [if_pos c1]
    · rw [if_neg c1] at h ⊢
      by_cases c2 : t.data = []
      · rw [if_pos c2]
      · rw [if_neg c2] at h ⊢
        by_cases c3 : 7 < t.data.headD 0
        · rw [if_pos c3]
        · rw [if_neg c3] at h ⊢
          by_cases c4 : t.data.tail = [] ∧ t.data.headD 0 ≠ 0
          · rw [if_pos c4]
          · rw [if_neg c4] at h ⊢
            by_cases c5 : buf.length < t.data.tail.length
            · rw [if_pos c5]
            · rw [if_neg c5] at h
              exact absurd rfl h
  · intro o buf h
    by_cases c : buf.length < (oidRendering o.arcs).length + 1
    · simp [asn1_oid_to_string, c]
    · simp [asn1_oid_to_string, c] at h
  · intro t buf h1 h2 h3 h4 h5
    simp [asn1_string, h1, h2, h3, h4, h5]

/-- Closed instantiation of `C6_outputs_unwritten_on_failure` at concrete
decoders, tokens and buffers. -/
theorem C6_outputs_unwritten_on_failure_witness :
    (asn1_string ⟨0, [104, 105], true, 22, 0⟩ [9, 9]).2 = [9, 9]
    ∧ (asn1_bitstring (bitstringToken [9]) [3]).2 = [3]
    ∧ (asn1_oid_to_string ⟨[1, 2, 840]⟩ [0]).2 = [0]
    ∧ asn1_string ⟨0, [104, 105], true, 22, 0⟩ [9, 9] = (.ASININE_ERROR_MEMORY, [9, 9]) :=
  ⟨C6_outputs_unwritten_on_failure.1 ⟨0, [104, 105], true, 22, 0⟩ [9, 9] (by decide),
   C6_outputs_unwritten_on_failure.2.1 (bitstringToken [9]) [3] (by decide),
   C6_outputs_unwritten_on_failure.2.2.1 ⟨[1, 2, 840]⟩ [0] (by decide),
   C6_outputs_unwritten_on_failure.2.2.2 ⟨0, [104, 105], true, 22, 0⟩ [9, 9]
     (by decide) (by decide) (by decide) (by decide) (by decide)⟩

/-- C8: the OID decoder reads base-128 big-endian variable-length integers
(content {0x2A, 0x86, 0x48} is 1.2.840), unpacks the first encoded value v
into arcs v / 40 and v % 40 (so v = 40 * arc0 + arc1, checked for every
one-octet value), rejects a continuation bit that never clears and a
superfluous leading 0x80 octet as Invalid, reports Memory when the arc
count would exceed `ASN1_OID_MAXIMUM_DEPTH` or an arc value would overflow
32 bits, and every successfully decoded OID has at most
`ASN1_OID_MAXIMUM_DEPTH` arcs. -/
theorem C8_oid_decode :
    asn1_oid (oidToken [42, 134, 72]) = .ok ⟨[1, 2, 840]⟩
    ∧ (∀ b : Fin 128, asn1_oid (oidToken [b.val]) = .ok ⟨[b.val / 40, b.val % 40]⟩)
    ∧ (∀ b : Fin 128, 40 * (b.val / 40) + b.val % 40 = b.val)
    ∧ asn1_oid (oidToken [42, 134]) = .error .ASININE_ERROR_INVALID
    ∧ asn1_oid (oidToken [42, 128, 1]) = .error .ASININE_ERROR_INVALID
    ∧ asn1_oid (oidToken (42 :: List.replicate 11 1)) = .error .ASININE_ERROR_MEMORY
    ∧ asn1_oid (oidToken [42, 144, 128, 128, 128, 0]) = .error .ASININE_ERROR_MEMORY
    ∧ (∀ t o, asn1_oid t = .ok o → o.num ≤ ASN1_OID_MAXIMUM_DEPTH) := by
  refine ⟨by decide, by decide, by decide, by decide, by decide, by decide, by decide, ?_⟩
  intro t o h
  unfold asn1_oid at h
  split at h
  · exact absurd h (by simp)
  · split at h
    · exact absurd h (by simp)
    · split at h
      · exact absurd h (by simp)
      · exact absurd h (by simp)
      · rename_i v vs
        split at h
        · exact absurd h (by simp)
        · rename_i hlen
          injection h with h
          rw [← h]
          simp only [asn1_oid_t.num, List.length_cons, ASN1_OID_MAXIMUM_DEPTH] at hlen ⊢
          omega

/-- Closed instantiation of the bound part of `C8_oid_decode` at the
concretely decoded OID 1.2.840. -/
theorem C8_oid_decode_witness : asn1_oid_t.num ⟨[1, 2, 840]⟩ ≤ ASN1_OID_MAXIMUM_DEPTH :=
  C8_oid_decode.2.2.2.2.2.2.2 (oidToken [42, 134, 72]) ⟨[1, 2, 840]⟩ C8_oid_decode.1

/-- C9 counterexample: the claim says `asn1_oid_to_string` fails with
`Memory` on a too-small buffer, but the header (line 159) declares its
result `bool`, not `asinine_err_t`, so no `ASININE_ERROR_MEMORY` result
exists in its type: rendering 1.2.840 (which needs 8 bytes) into a 2-byte
buffer returns the Boolean `false` with the buffer untouched. -/
theorem C9_oid_to_string_counterexample :
    asn1_oid_to_string ⟨[1, 2, 840]⟩ [0, 0] = (false, [0, 0]) := by decide

/-- C9 (amended): `asn1_oid_to_string` renders the arcs as dot-separated
decimal digits plus terminator into the caller's buffer (1.2.840 renders as
the bytes of "1.2.840\x00") and fails — returning its Boolean failure result
`false`, the header's stand-in for a Memory condition — exactly when the
buffer is too small for the full rendering including separators and
terminator, leaving the buffer unchanged. -/
theorem C9_oid_to_string_buffer :
    asn1_oid_to_string ⟨[1, 2, 840]⟩ [7, 7, 7, 7, 7, 7, 7, 7]
      = (true, [49, 46, 50, 46, 56, 52, 48, 0])
    ∧ (∀ o buf, (asn1_oid_to_string o buf).1 = false
        ↔ buf.length < (oidRendering o.arcs).length + 1)
    ∧ (∀ o buf, (asn1_oid_to_string o buf).1 = false → (asn1_oid_to_string o buf).2 = buf) := by
  refine ⟨by decide, ?_, ?_⟩
  · intro o buf
    by_cases c : buf.length < (oidRendering o.arcs).length + 1
    · simp [asn1_oid_to_string, c]
    · simp [asn1_oid_to_string, c]
  · intro o buf h
    by_cases c : buf.length < (oidRendering o.arcs).length + 1
    · simp [asn1_oid_to_string, c]
    · simp [asn1_oid_to_string, c] at h

/-- Closed instantiation of the quantified parts of `C9_oid_to_string_buffer`
at the OID 1.2.840 and a 2-byte buffer. -/
theorem C9_oid_to_string_buffer_witness :
    (asn1_oid_to_string ⟨[1, 2, 840]⟩ [3, 3]).1 = false
    ∧ (asn1_oid_to_string ⟨[1, 2, 840]⟩ [3, 3]).2 = [3, 3] :=
  ⟨(C9_oid_to_string_buffer.2.1 ⟨[1, 2, 840]⟩ [3, 3]).2 (by decide),
   C9_oid_to_string_buffer.2.2 ⟨[1, 2, 840]⟩ [3, 3] (by decide)⟩
